import Mathlib

/-!
Shallow embedding of the client-side synchronization cache of the RAGLIB
repository (`src/qna-pdf-pal/src/store/libraryStore.ts`): the zustand store
holding libraries, documents and conversations, its remote-driven refresh
operations, the local document mutators, and the persistence projection and
load-time migration.

Modelling conventions:
- JavaScript `Date` objects are built only via `new Date(string)` in this
  store; they are embedded as a wrapper `DateV` around the raw string, since
  no operation ever inspects the parsed value.
- Remote calls are embedded as explicit response parameters: a `Bool` for a
  call whose only observed property is `res.ok`, and an `Option` of the
  parsed payload for a call whose body is consumed (`none` = the call was
  not ok / failed).
- A thrown `Error` is embedded as `Except.error msg`; when an operation
  throws, the zustand state is left exactly as it was, so operations return
  `Except String State` (or a pair with the returned entity) and an
  `Except.error` result means the store state is unchanged.
- JavaScript numbers appearing in the data model (page numbers, chunk
  indices) are embedded as `Nat`; embedding vectors as `List (List Rat)`.
-/

/-- Wrapper for `new Date(s)`: the store only ever constructs dates from the
server's string timestamps and never inspects them. -/
structure DateV where
  raw : String
deriving DecidableEq, Repr

/-- `DocumentChunk` from libraryStore.ts. -/
structure DocumentChunk where
  id : String
  content : String
  pageNumber : Nat
  chunkIndex : Nat
deriving DecidableEq, Repr

/-- `PDFDocument` from libraryStore.ts (the browser `File` handle is not part
of any persisted or reconciled state and is omitted). -/
structure PDFDocument where
  id : String
  name : String
  uploadDate : DateV
  tags : String
  chunks : List DocumentChunk
  embeddings : Option (List (List Rat))
deriving DecidableEq, Repr

/-- `Library` from libraryStore.ts. -/
structure Library where
  id : String
  name : String
  description : Option String
  documents : List PDFDocument
  createdAt : DateV
  tags : List String
deriving DecidableEq, Repr

/-- `ChatMessage` from libraryStore.ts. -/
structure ChatMessage where
  id : String
  content : String
  role : Bool  -- true = "user", false = "assistant"
  timestamp : DateV
  sources : Option (List String)
deriving DecidableEq, Repr

/-- `Conversation` from libraryStore.ts. -/
structure Conversation where
  id : String
  libraryId : String
  title : String
  messages : List ChatMessage
  createdAt : DateV
  updatedAt : DateV
deriving DecidableEq, Repr

/-- The mutable model owned by the store: `libraries`, `currentLibrary`,
`conversations`, `currentConversation`. -/
structure State where
  libraries : List Library
  currentLibrary : Option Library
  conversations : List Conversation
  currentConversation : Option Conversation
deriving DecidableEq, Repr

/-- Server shape of a conversation as returned by the backend's list/fetch
conversation endpoints (snake-case keys, string timestamps). -/
structure RawConv where
  id : String
  library_id : String
  title : String
  messages : List ChatMessage
  created_at : String
  updated_at : String
deriving DecidableEq, Repr

/-- Ingestion normalization applied to every server conversation record:
`{ ...conv, libraryId: conv.library_id, createdAt: new Date(conv.created_at),
updatedAt: new Date(conv.updated_at) }`. -/
def normalizeConv (r : RawConv) : Conversation :=
  { id := r.id
    libraryId := r.library_id
    title := r.title
    messages := r.messages
    createdAt := DateV.mk r.created_at
    updatedAt := DateV.mk r.updated_at }

/-- Server shape of a document record (`GET /libraries/:id/documents`). -/
structure RawDoc where
  id : String
  name : String
  upload_date : String
  tags : Option String
  chunks : Option (List DocumentChunk)
deriving DecidableEq, Repr

/-- Per-document normalization in `fetchLibraries`:
`{ ...doc, uploadDate: new Date(doc.upload_date), tags: doc.tags || "",
chunks: doc.chunks || [] }`. -/
def normalizeDoc (d : RawDoc) : PDFDocument :=
  { id := d.id
    name := d.name
    uploadDate := DateV.mk d.upload_date
    tags := (d.tags.getD "")
    chunks := d.chunks.getD []
    embeddings := none }

/-- Server shape of a library record (`GET /libraries`). -/
structure RawLib where
  id : String
  name : String
  description : Option String
  created_at : String
  tags : Option String
deriving DecidableEq, Repr

/-- Per-library normalization in `fetchLibraries`: documents mapped through
`normalizeDoc`, `createdAt: new Date(lib.created_at)`, and the comma-joined
tag string split and trimmed (`lib.tags ? lib.tags.split(",").map(trim) : []`;
the empty string is falsy in JavaScript, hence also yields `[]`). -/
def normalizeLib (lib : RawLib) (docs : List RawDoc) : Library :=
  { id := lib.id
    name := lib.name
    description := lib.description
    documents := docs.map normalizeDoc
    createdAt := DateV.mk lib.created_at
    tags :=
      match lib.tags with
      | some t => if t = "" then [] else (t.splitOn ",").map String.trim
      | none => [] }

/-- `fetchAllConversations`: for every currently known library, in list
order, issue the per-library "list conversations" call; a failing call
(`!res.ok`) contributes nothing; successes are normalized and concatenated;
the conversation list is replaced wholesale. The source has no `throw`, so
the embedding is a total function. `listConvs lib.id = none` models a
non-ok response for that library. -/
def fetchAllConversations (s : State)
    (listConvs : String → Option (List RawConv)) : State :=
  let allConvs := s.libraries.foldl
    (fun acc lib =>
      match listConvs lib.id with
      | some convs => acc ++ convs.map normalizeConv
      | none => acc) []
  { s with conversations := allConvs }

/-- The selection repair inside the `set` callback of `fetchLibraries`:
`if (!currentLibrary || !libraries.some(lib => lib.id === currentLibrary.id))
currentLibrary = libraries.length > 0 ? libraries[0] : null`. -/
def repairCurrent (prev : Option Library) (libs : List Library) :
    Option Library :=
  match prev with
  | none => libs.head?
  | some cur =>
      if libs.any (fun lib => lib.id = cur.id) then some cur
      else libs.head?

/-- `fetchLibraries`: replace the library list with the normalized server
response, repair `currentLibrary` (keep it when its id is still present,
otherwise first library or null), then run a full conversation refresh.
`libsResp` is the parsed `GET /libraries` body and `docsResp` the parsed
per-library document bodies. -/
def fetchLibraries (s : State) (libsResp : List RawLib)
    (docsResp : String → List RawDoc)
    (listConvs : String → Option (List RawConv)) : State :=
  let libraries := libsResp.map (fun lib => normalizeLib lib (docsResp lib.id))
  fetchAllConversations
    { s with libraries := libraries
             currentLibrary := repairCurrent s.currentLibrary libraries }
    listConvs

/-- `addDocument(libraryId, document)`: local-only append to the matching
library's document list. -/
def addDocument (s : State) (libraryId : String) (document : PDFDocument) :
    State :=
  { s with libraries := s.libraries.map (fun lib =>
      if lib.id = libraryId then
        { lib with documents := lib.documents ++ [document] }
      else lib) }

/-- `removeDocument(libraryId, documentId)`: local-only filter of the
matching library's document list. -/
def removeDocument (s : State) (libraryId documentId : String) : State :=
  { s with libraries := s.libraries.map (fun lib =>
      if lib.id = libraryId then
        { lib with documents :=
            lib.documents.filter (fun doc => doc.id ≠ documentId) }
      else lib) }

/-- `createConversation(libraryId, title)`: throws when the remote create is
not ok; otherwise runs a full conversation refresh and returns
`conversations.find(c => c.libraryId === libraryId && c.title === title)`,
which is `undefined` (here `none`) when no entry matches. -/
def createConversation (s : State) (libraryId title : String)
    (createOk : Bool) (listConvs : String → Option (List RawConv)) :
    Except String (State × Option Conversation) :=
  if !createOk then .error "Failed to create conversation"
  else
    let s1 := fetchAllConversations s listConvs
    .ok (s1, s1.conversations.find?
      (fun c => c.libraryId = libraryId && c.title = title))

/-- The object spread `{ ...c, ...conv }` in `fetchConversation`: `conv` is
the fetched record carrying every field of the internal shape (after its
`libraryId`/`createdAt`/`updatedAt` assignments), so each field of `c` is
overwritten by the corresponding field of `conv`. -/
def spreadMerge (_c conv : Conversation) : Conversation :=
  { id := conv.id
    libraryId := conv.libraryId
    title := conv.title
    messages := conv.messages
    createdAt := conv.createdAt
    updatedAt := conv.updatedAt }

/-- `fetchConversation(conversationId)`: throws when the remote fetch is not
ok; otherwise normalizes the record, patches the entry whose id matches in
place (`conversations.map(c => c.id === conversationId ? {...c, ...conv} : c)`),
sets it as `currentConversation`, and returns it. -/
def fetchConversation (s : State) (conversationId : String)
    (resp : Option RawConv) : Except String (State × Conversation) :=
  match resp with
  | none => .error "Failed to fetch conversation"
  | some raw =>
      let conv := normalizeConv raw
      .ok ({ s with
              conversations := s.conversations.map (fun c =>
                if c.id = conversationId then spreadMerge c conv else c)
              currentConversation := some conv }, conv)

/-- `addMessage(conversationId, message)`: throws when the remote append is
not ok; on success re-fetches that conversation (whose own failure also
propagates) and discards the returned entity. The message body is sent to
the backend; the local commit comes entirely from the re-fetch. -/
def addMessage (s : State) (conversationId : String) (_message : ChatMessage)
    (postOk : Bool) (resp : Option RawConv) : Except String State :=
  if !postOk then .error "Failed to save message"
  else (fetchConversation s conversationId resp).map Prod.fst

/-- The persisted projection `{ libraries, conversations }`. -/
structure Snapshot where
  libraries : List Library
  conversations : List Conversation
deriving DecidableEq, Repr

/-- `partialize`: the projection of the state written to durable storage. -/
def partialize (s : State) : Snapshot :=
  { libraries := s.libraries, conversations := s.conversations }

/-- The test of the migration regex
`^[0-9a-f]{8}-[0-9a-f]{4}-[0-9a-f]{4}-[0-9a-f]{4}-[0-9a-f]{12}$` with the
`i` flag: 36 characters, dashes at positions 8, 13, 18 and 23, hex digits
(either case) everywhere else. -/
def uuidTest (str : String) : Bool :=
  let cs := str.toList
  cs.length = 36 &&
    (List.range 36).all (fun i =>
      let c := cs.getD i ' '
      if i = 8 || i = 13 || i = 18 || i = 23 then c = '-'
      else c.isDigit || ('a' ≤ c && c ≤ 'f') || ('A' ≤ c && c ≤ 'F'))

/-- The load-time `migrate` callback: drops every persisted conversation
whose id fails the UUID pattern; every other field of the snapshot (in
particular `libraries`) is passed through by the `...state` spread. -/
def migrate (p : Snapshot) : Snapshot :=
  { p with conversations := p.conversations.filter (fun conv => uuidTest conv.id) }

/-! ### Concrete fixtures used by existence proofs and witnesses -/

/-- A concrete document with identity "a". -/
def dA : PDFDocument :=
  { id := "a", name := "a.pdf", uploadDate := DateV.mk "t1", tags := ""
    chunks := [], embeddings := none }

/-- A second concrete document sharing identity "a" with `dA`. -/
def dA2 : PDFDocument :=
  { id := "a", name := "copy.pdf", uploadDate := DateV.mk "t2", tags := ""
    chunks := [], embeddings := none }

/-- A concrete document with fresh identity "b". -/
def dB : PDFDocument :=
  { id := "b", name := "b.pdf", uploadDate := DateV.mk "t3", tags := ""
    chunks := [], embeddings := none }

/-- A concrete library with identity "L" holding `dA`. -/
def libL : Library :=
  { id := "L", name := "Lib", description := none, documents := [dA]
    createdAt := DateV.mk "t0", tags := [] }

/-- A concrete state holding the single library `libL`. -/
def s0 : State :=
  { libraries := [libL], currentLibrary := none, conversations := []
    currentConversation := none }

/-- A remote that fails every per-library conversation listing. -/
def lcFail : String → Option (List RawConv) := fun _ => none

/-- A concrete server library record with identity "L1". -/
def rawL1W : RawLib :=
  { id := "L1", name := "Physics", description := none, created_at := "t0"
    tags := none }

/-- A remote that returns no documents for any library. -/
def docsW : String → List RawDoc := fun _ => []

/-- The empty state. -/
def sW : State :=
  { libraries := [], currentLibrary := none, conversations := []
    currentConversation := none }

/-- A stale library with identity "OLD": absent from every fixture response. -/
def staleLibW : Library :=
  { id := "OLD", name := "Old", description := none, documents := []
    createdAt := DateV.mk "t", tags := [] }

/-- The empty state with the stale library selected. -/
def sW2 : State := { sW with currentLibrary := some staleLibW }

/-- A concrete server conversation record with identity "X". -/
def rawX : RawConv :=
  { id := "X", library_id := "L", title := "Chat A", messages := []
    created_at := "t5", updated_at := "t6" }

/-! ### Shared lemmas -/

/-- The `allConvs` accumulator loop of `fetchAllConversations` is a
concatenation over the library list in order, with a failing response
contributing the empty list. -/
theorem foldl_listConvs_eq_bind (lc : String → Option (List RawConv))
    (libs : List Library) (init : List Conversation) :
    libs.foldl
      (fun acc lib =>
        match lc lib.id with
        | some convs => acc ++ convs.map normalizeConv
        | none => acc) init
    = init ++ libs.flatMap (fun lib => ((lc lib.id).getD []).map normalizeConv) := by
  induction libs generalizing init with
  | nil => simp
  | cons lib rest ih =>
      cases h : lc lib.id with
      | none => simp [List.foldl_cons, h, ih]
      | some convs => simp [List.foldl_cons, h, ih]

/-- `fetchAllConversations` leaves the library list unchanged. -/
theorem fetchAllConversations_libraries (s : State)
    (lc : String → Option (List RawConv)) :
    (fetchAllConversations s lc).libraries = s.libraries := rfl

/-- `fetchAllConversations` leaves the current library unchanged. -/
theorem fetchAllConversations_currentLibrary (s : State)
    (lc : String → Option (List RawConv)) :
    (fetchAllConversations s lc).currentLibrary = s.currentLibrary := rfl

/-- The conversation list produced by `fetchAllConversations`. -/
theorem fetchAllConversations_conversations (s : State)
    (lc : String → Option (List RawConv)) :
    (fetchAllConversations s lc).conversations
      = s.libraries.flatMap (fun lib => ((lc lib.id).getD []).map normalizeConv) := by
  show s.libraries.foldl _ [] = _
  rw [foldl_listConvs_eq_bind]
  simp

/-- The library list produced by `fetchLibraries` is the normalized server
response. -/
theorem fetchLibraries_libraries (s : State) (libsResp : List RawLib)
    (docsResp : String → List RawDoc)
    (lc : String → Option (List RawConv)) :
    (fetchLibraries s libsResp docsResp lc).libraries
      = libsResp.map (fun lib => normalizeLib lib (docsResp lib.id)) := rfl

/-- The current-library repair performed by `fetchLibraries`. -/
theorem fetchLibraries_currentLibrary (s : State) (libsResp : List RawLib)
    (docsResp : String → List RawDoc)
    (lc : String → Option (List RawConv)) :
    (fetchLibraries s libsResp docsResp lc).currentLibrary
      = repairCurrent s.currentLibrary
          (fetchLibraries s libsResp docsResp lc).libraries := rfl

/-- A list whose head is `some a` contains an element with the id of `a`. -/
theorem head?_some_any_id (l : List Library) (a : Library)
    (h : l.head? = some a) : (l.any fun lib => lib.id = a.id) = true := by
  have hmem : a ∈ l := by
    cases l with
    | nil => cases h
    | cons b t =>
        simp only [List.head?_cons, Option.some.injEq] at h
        subst h
        exact List.mem_cons_self _ _
  exact List.any_eq_true.mpr ⟨a, hmem, by simp only [decide_eq_true_eq]⟩

/-- `List.find?` returns the head of the filtered list: the first match in
iteration order. -/
theorem find?_eq_head?_filter {α : Type} (p : α → Bool) (l : List α) :
    l.find? p = (l.filter p).head? := by
  induction l with
  | nil => rfl
  | cons a t ih =>
      cases h : p a with
      | true =>
          rw [List.find?_cons_of_pos t h, List.filter_cons_of_pos h,
            List.head?_cons]
      | false =>
          rw [List.find?_cons_of_neg t (by simp [h]),
            List.filter_cons_of_neg (by simp [h]), ih]

/-- `repairCurrent` only ever selects an id present in the new collection. -/
theorem repairCurrent_mem (prev : Option Library) (libs : List Library)
    (cur : Library) (h : repairCurrent prev libs = some cur) :
    (libs.any fun lib => lib.id = cur.id) = true := by
  cases prev with
  | none => exact head?_some_any_id _ _ h
  | some p =>
      have h2 : (if (libs.any fun lib => lib.id = p.id) = true then some p
          else libs.head?) = some cur := h
      by_cases hc : (libs.any fun lib => lib.id = p.id) = true
      · rw [if_pos hc] at h2
        cases h2
        exact hc
      · rw [if_neg hc] at h2
        exact head?_some_any_id _ _ h2

/-- When the previous selection's id is absent from the new collection,
`repairCurrent` falls back to the first element or null. -/
theorem repairCurrent_absent (prev : Option Library) (libs : List Library)
    (habs : ∀ cur, prev = some cur →
      (libs.any fun lib => lib.id = cur.id) = false) :
    repairCurrent prev libs = libs.head? := by
  cases prev with
  | none => rfl
  | some p =>
      show (if (libs.any fun lib => lib.id = p.id) = true then some p
          else libs.head?) = libs.head?
      rw [if_neg (by simp [habs p rfl])]

/-- Pointwise-equal contribution functions yield the same concatenation. -/
theorem flatMap_congr_on {β : Type} (l : List Library) (f g : Library → List β)
    (h : ∀ lib ∈ l, f lib = g lib) : l.flatMap f = l.flatMap g := by
  induction l with
  | nil => rfl
  | cons a t ih =>
      rw [List.flatMap_cons, List.flatMap_cons, h a (List.mem_cons_self a t),
        ih (fun lib hl => h lib (List.mem_cons_of_mem a hl))]

/-! ### Claim theorems -/

/-- C1: after `fetchLibraries()` completes, `currentLibrary` is either null
or refers to a library whose id is present in the newly fetched collection;
and when the previously selected library's id is absent from the new
collection, `currentLibrary` becomes the first library of the new
collection, or null if the collection is empty. -/
theorem fetchLibraries_currentLibrary_valid (s : State)
    (libsResp : List RawLib) (docsResp : String → List RawDoc)
    (lc : String → Option (List RawConv)) :
    (∀ cur, (fetchLibraries s libsResp docsResp lc).currentLibrary = some cur →
        ((fetchLibraries s libsResp docsResp lc).libraries.any
          (fun lib => lib.id = cur.id)) = true)
    ∧ ((∀ cur, s.currentLibrary = some cur →
          ((fetchLibraries s libsResp docsResp lc).libraries.any
            (fun lib => lib.id = cur.id)) = false) →
        (fetchLibraries s libsResp docsResp lc).currentLibrary
          = (fetchLibraries s libsResp docsResp lc).libraries.head?) := by
  constructor
  · intro cur h
    rw [fetchLibraries_currentLibrary] at h
    exact repairCurrent_mem _ _ _ h
  · intro habs
    rw [fetchLibraries_currentLibrary]
    exact repairCurrent_absent _ _ habs

/-- Witness for C1 at concrete inputs: from the empty selection the first
fetched library's id is selected, and a stale selection absent from the
response is replaced by the head of the new collection. -/
theorem fetchLibraries_currentLibrary_valid_witness :
    ((fetchLibraries sW [rawL1W] docsW lcFail).libraries.any
        (fun lib => lib.id = (normalizeLib rawL1W (docsW "L1")).id)) = true
    ∧ (fetchLibraries sW2 [rawL1W] docsW lcFail).currentLibrary
        = (fetchLibraries sW2 [rawL1W] docsW lcFail).libraries.head? := by
  constructor
  · exact (fetchLibraries_currentLibrary_valid sW [rawL1W] docsW lcFail).1
      (normalizeLib rawL1W (docsW "L1")) rfl
  · refine (fetchLibraries_currentLibrary_valid sW2 [rawL1W] docsW lcFail).2 ?_
    intro cur hcur
    have h2 : staleLibW = cur := by
      simpa [sW2, sW] using hcur
    subst h2
    decide

/-- C2: the load-time migration drops exactly the persisted conversations
whose id fails the canonical UUID v4 pattern (case-insensitive), keeps every
conversation whose id matches, and leaves the snapshot's libraries
unfiltered. -/
theorem migrate_uuid_filter (p : Snapshot) :
    (migrate p).libraries = p.libraries
    ∧ (migrate p).conversations
        = p.conversations.filter (fun conv => uuidTest conv.id)
    ∧ ∀ conv, conv ∈ (migrate p).conversations
        ↔ (conv ∈ p.conversations ∧ uuidTest conv.id = true) := by
  refine ⟨rfl, rfl, ?_⟩
  intro conv
  simp [migrate, List.mem_filter]

/-- C3: `fetchAllConversations()` is a total function that replaces the whole
conversation list with the concatenation, in library-list order, of the
normalized conversations of the libraries whose sub-fetch succeeded; a
library whose sub-fetch fails contributes exactly nothing (turning its
failure into an empty success changes nothing). -/
theorem fetchAllConversations_partial_failure (s : State)
    (lc : String → Option (List RawConv)) :
    (fetchAllConversations s lc).conversations
      = s.libraries.flatMap
          (fun lib => ((lc lib.id).getD []).map normalizeConv)
    ∧ ∀ failId, lc failId = none →
        fetchAllConversations s lc
          = fetchAllConversations s
              (fun libId => if libId = failId then some [] else lc libId) := by
  refine ⟨fetchAllConversations_conversations s lc, ?_⟩
  intro failId hfail
  have h1 : fetchAllConversations s lc
      = { s with conversations := (fetchAllConversations s lc).conversations } := rfl
  have h2 : fetchAllConversations s
        (fun libId => if libId = failId then some [] else lc libId)
      = { s with conversations :=
          (fetchAllConversations s
            (fun libId => if libId = failId then some [] else lc libId)).conversations } := rfl
  rw [h1, h2, fetchAllConversations_conversations,
    fetchAllConversations_conversations]
  have hpt : ∀ lib ∈ s.libraries,
      ((lc lib.id).getD []).map normalizeConv
        = (((fun libId => if libId = failId then some [] else lc libId)
            lib.id).getD []).map normalizeConv := by
    intro lib _
    by_cases hid : lib.id = failId
    · rw [hid, hfail]
      simp
    · simp [hid]
  rw [flatMap_congr_on s.libraries _ _ hpt]

/-- Witness for C3 at concrete inputs: with the single library "L" and a
remote failing every sub-fetch, the refresh empties the list and the failing
library "L" contributes nothing. -/
theorem fetchAllConversations_partial_failure_witness :
    (fetchAllConversations s0 lcFail).conversations
      = s0.libraries.flatMap
          (fun lib => ((lcFail lib.id).getD []).map normalizeConv)
    ∧ fetchAllConversations s0 lcFail
        = fetchAllConversations s0
            (fun libId => if libId = "L" then some [] else lcFail libId) :=
  ⟨(fetchAllConversations_partial_failure s0 lcFail).1,
   (fetchAllConversations_partial_failure s0 lcFail).2 "L" rfl⟩

/-- C4: `createConversation(libraryId, title)` fails when the remote create
reports non-success, itself inserting nothing locally; on success it runs a
full conversation refresh and returns the first conversation of the
refreshed list, in iteration order, whose `libraryId` and `title` both match
the arguments (`find?` equals the head of the matching sublist; it is `none`
when no entry matches). -/
theorem createConversation_spec (s : State) (libraryId title : String)
    (lc : String → Option (List RawConv)) :
    createConversation s libraryId title false lc
      = .error "Failed to create conversation"
    ∧ createConversation s libraryId title true lc
        = .ok (fetchAllConversations s lc,
            (fetchAllConversations s lc).conversations.find?
              (fun c => c.libraryId = libraryId && c.title = title))
    ∧ (fetchAllConversations s lc).conversations.find?
          (fun c => c.libraryId = libraryId && c.title = title)
        = ((fetchAllConversations s lc).conversations.filter
            (fun c => c.libraryId = libraryId && c.title = title)).head? :=
  ⟨rfl, rfl, find?_eq_head?_filter _ _⟩

/-- C5: `fetchConversation(id)` fails when the remote reports non-success;
on success it rewrites, in place, exactly the entries whose id matches the
requested id (the spread overwrites every field with the fetched record),
sets the fetched conversation as current, and returns it; the update is a
`map`, so list order and length are preserved and no entry is added. -/
theorem fetchConversation_spec (s : State) (cid : String) (raw : RawConv) :
    fetchConversation s cid none = .error "Failed to fetch conversation"
    ∧ fetchConversation s cid (some raw)
        = .ok ({ s with
                  conversations := s.conversations.map (fun c =>
                    if c.id = cid then normalizeConv raw else c)
                  currentConversation := some (normalizeConv raw) },
               normalizeConv raw)
    ∧ (s.conversations.map (fun c =>
          if c.id = cid then normalizeConv raw else c)).length
        = s.conversations.length :=
  ⟨rfl, rfl, by simp⟩

/-- C6: `addMessage(conversationId, message)` fails when the remote append
call does not succeed (the message itself is never inserted locally); on
success it re-fetches that single conversation by id — whose own failure
also propagates — and commits the fetched record into the conversation list
by id match and as the current conversation. -/
theorem addMessage_spec (s : State) (cid : String) (msg : ChatMessage)
    (resp : Option RawConv) (raw : RawConv) :
    addMessage s cid msg false resp = .error "Failed to save message"
    ∧ addMessage s cid msg true resp
        = (fetchConversation s cid resp).map Prod.fst
    ∧ addMessage s cid msg true (some raw)
        = .ok { s with
                 conversations := s.conversations.map (fun c =>
                   if c.id = cid then normalizeConv raw else c)
                 currentConversation := some (normalizeConv raw) } :=
  ⟨rfl, rfl, rfl⟩

/-- C8: the projection written to durable storage is exactly the libraries
and conversations fields and nothing else; in particular changing the
selection state (`currentLibrary`, `currentConversation`) never changes the
persisted record. -/
theorem partialize_spec (s : State) :
    partialize s = { libraries := s.libraries
                     conversations := s.conversations }
    ∧ ∀ cl cc,
        partialize { s with currentLibrary := cl
                            currentConversation := cc } = partialize s :=
  ⟨rfl, fun _ _ => rfl⟩

/-- The identity list of the document collection of the first library
matching libId, used to compare collections "by identity set". -/
def docIds (s : State) (libId : String) : List String :=
  ((s.libraries.find? (fun lib => lib.id = libId)).map
    (fun lib => lib.documents.map (fun d => d.id))).getD []

/-- C7 counterexample: in the concrete state `s0` the library "L" already
holds a document with identity "a"; adding `dA2` (also identity "a") and
then removing by `dA2.id` removes both, so the identity set loses "a" and
the collection is not restored. -/
theorem addRemoveDocument_counterexample :
    "a" ∈ docIds s0 "L"
    ∧ "a" ∉ docIds (removeDocument (addDocument s0 "L" dA2) "L" dA2.id) "L" := by
  decide

/-- C7 amended: when no library matching libId already holds a document with
the identity of d, `addDocument(libId, d)` followed by
`removeDocument(libId, d.id)` restores the whole store state exactly (hence
the document collection of libId by identity set); both operations are pure
state transformers taking no remote response, i.e. neither issues a remote
call. -/
theorem addDocument_removeDocument_restores (s : State) (libId : String)
    (d : PDFDocument)
    (hfresh : ∀ lib ∈ s.libraries, lib.id = libId →
      ∀ doc ∈ lib.documents, doc.id ≠ d.id) :
    removeDocument (addDocument s libId d) libId d.id = s := by
  have hlibs : (removeDocument (addDocument s libId d) libId d.id).libraries
      = s.libraries := by
    show (s.libraries.map _).map _ = s.libraries
    rw [List.map_map]
    have h1 : ∀ lib ∈ s.libraries,
        ((fun lib => if lib.id = libId then
            { lib with documents :=
                lib.documents.filter (fun doc => doc.id ≠ d.id) }
          else lib) ∘
         (fun lib => if lib.id = libId then
            { lib with documents := lib.documents ++ [d] }
          else lib)) lib = id lib := by
      intro lib hmem
      by_cases hid : lib.id = libId
      · show (fun lib => if lib.id = libId then
            { lib with documents :=
                lib.documents.filter (fun doc => doc.id ≠ d.id) }
          else lib) (if lib.id = libId then
            { lib with documents := lib.documents ++ [d] } else lib) = lib
        rw [if_pos hid]
        show (if lib.id = libId then
            { lib with documents :=
                (lib.documents ++ [d]).filter (fun doc => doc.id ≠ d.id) }
          else _) = lib
        rw [if_pos hid]
        have hdocs : (lib.documents ++ [d]).filter
            (fun doc => doc.id ≠ d.id) = lib.documents := by
          rw [List.filter_append]
          have h2 : lib.documents.filter (fun doc => doc.id ≠ d.id)
              = lib.documents :=
            List.filter_eq_self.mpr (fun doc hdoc => by
              simp [hfresh lib hmem hid doc hdoc])
          have h3 : ([d].filter (fun doc => doc.id ≠ d.id)) = [] := by simp
          rw [h2, h3, List.append_nil]
        rw [hdocs]
      · show (fun lib => if lib.id = libId then
            { lib with documents :=
                lib.documents.filter (fun doc => doc.id ≠ d.id) }
          else lib) (if lib.id = libId then
            { lib with documents := lib.documents ++ [d] } else lib) = lib
        rw [if_neg hid]
        show (if lib.id = libId then _ else lib) = lib
        rw [if_neg hid]
    rw [List.map_congr_left h1, List.map_id]
  have hs : removeDocument (addDocument s libId d) libId d.id
      = { s with libraries :=
          (removeDocument (addDocument s libId d) libId d.id).libraries } := rfl
  rw [hs, hlibs]

/-- Witness for the amended C7 at concrete inputs: adding the fresh document
`dB` to library "L" of `s0` and removing it restores `s0` exactly. -/
theorem addDocument_removeDocument_restores_witness :
    removeDocument (addDocument s0 "L" dB) "L" dB.id = s0 :=
  addDocument_removeDocument_restores s0 "L" dB (by decide)

/-- C9: there is an execution in which `createConversation` completes
without failing (the remote create is ok and a library with the requested
id exists) yet resolves to no conversation (`none`, i.e. `undefined`
despite the declared `Promise<Conversation>`): here the per-library
sub-fetch for that library fails during the refresh, so the refreshed list
holds no matching entry. -/
theorem createConversation_can_return_none :
    ∃ (s : State) (libraryId title : String)
      (lc : String → Option (List RawConv)),
      libraryId ∈ s.libraries.map (fun lib => lib.id)
      ∧ lc libraryId = none
      ∧ createConversation s libraryId title true lc
          = .ok (fetchAllConversations s lc, none) :=
  ⟨s0, "L", "Chat A", lcFail, by decide, rfl, rfl⟩

/-- C10: when the requested id is absent from the local conversation list, a
successful `fetchConversation` leaves the list entirely unchanged (the
fetched entity is not inserted) while still setting it as
`currentConversation`; so `currentConversation` need not be an element of
the conversation list afterwards. -/
theorem fetchConversation_absent_spec (s : State) (cid : String)
    (raw : RawConv)
    (habsent : ∀ c ∈ s.conversations, c.id ≠ cid) :
    fetchConversation s cid (some raw)
      = .ok ({ s with currentConversation := some (normalizeConv raw) },
             normalizeConv raw)
    ∧ (normalizeConv raw ∉ s.conversations →
        ∃ s1 conv, fetchConversation s cid (some raw) = .ok (s1, conv)
          ∧ s1.currentConversation = some conv
          ∧ conv ∉ s1.conversations) := by
  have hmap : s.conversations.map (fun c =>
      if c.id = cid then normalizeConv raw else c) = s.conversations := by
    have h1 : ∀ c ∈ s.conversations,
        (if c.id = cid then normalizeConv raw else c) = id c := by
      intro c hc
      rw [if_neg (habsent c hc)]
      rfl
    rw [List.map_congr_left h1, List.map_id]
  have hok : fetchConversation s cid (some raw)
      = .ok ({ s with currentConversation := some (normalizeConv raw) },
             normalizeConv raw) := by
    have hfc : fetchConversation s cid (some raw)
        = .ok ({ s with
                  conversations := s.conversations.map (fun c =>
                    if c.id = cid then normalizeConv raw else c)
                  currentConversation := some (normalizeConv raw) },
               normalizeConv raw) := rfl
    rw [hfc, hmap]
  refine ⟨hok, ?_⟩
  intro hnot
  exact ⟨{ s with currentConversation := some (normalizeConv raw) },
    normalizeConv raw, hok, rfl, hnot⟩

/-- Witness for C10 at concrete inputs: `s0` holds no conversations, so
fetching "X" commits nothing into the list while selecting the fetched
conversation, which is then not an element of the list. -/
theorem fetchConversation_absent_spec_witness :
    fetchConversation s0 "X" (some rawX)
      = .ok ({ s0 with currentConversation := some (normalizeConv rawX) },
             normalizeConv rawX)
    ∧ ∃ s1 conv, fetchConversation s0 "X" (some rawX) = .ok (s1, conv)
        ∧ s1.currentConversation = some conv
        ∧ conv ∉ s1.conversations :=
  ⟨(fetchConversation_absent_spec s0 "X" rawX (by decide)).1,
   (fetchConversation_absent_spec s0 "X" rawX (by decide)).2 (by decide)⟩
